import Mathlib

/-!
Verification of the vk-backend product server (file-backed variant,
src/server.js) against its natural-language specification.

The HTTP layer is embedded shallowly: each Express route handler becomes a
pure Lean function from the request data and the current state of the data
file to a response and the new state of the data file.  JavaScript values
that the handlers inspect are modelled at the granularity the code
distinguishes them:
  - a string-valued body/header field is an `Option String` (`none` is a
    missing field, i.e. `undefined`); JavaScript truthiness on such a value
    is `truthy` below (`undefined` and the empty string are falsy);
  - the `products` field of the bulk-replace body is either an array of
    product objects or anything else (`Array.isArray` is the only test the
    code performs on it);
  - the data file on disk either parses as a JSON array of products or the
    read fails (`FileData.bad` covers a missing, unreadable or unparseable
    file), which is exactly the distinction `readProducts` makes;
  - whether `fs.writeFileSync` succeeds is an environment input `writeOk`
    threaded into each handler.
-/

/-- A stored product record.  The JSON key "Product Name" contains a space,
which a Lean identifier cannot, so the field is called `ProductName`. -/
structure Product where
  Brand : String
  ProductName : String
  Yoshon : String
deriving DecidableEq, Repr

/-- State of the data file `yoshon-products.json`: either it parses as a
JSON array of products, or reading/parsing it fails. -/
inductive FileData where
  | ok (products : List Product)
  | bad
deriving DecidableEq, Repr

/-- `readProducts` (src/server.js lines 25-33): read and parse the data
file; on any error, log and return the empty array. -/
def readProducts : FileData → List Product
  | FileData.ok l => l
  | FileData.bad => []

/-- `writeProducts` (src/server.js lines 36-44): serialize the full array
back to the file, returning a success flag.  `writeOk` is whether the
underlying `fs.writeFileSync` call succeeds; on failure the file keeps its
previous state. -/
def writeProducts (l : List Product) (writeOk : Bool) (file : FileData) :
    Bool × FileData :=
  if writeOk then (true, FileData.ok l) else (false, file)

/-- JavaScript truthiness of an optional string value: `undefined` and the
empty string are falsy, every other string is truthy. -/
def truthy : Option String → Bool
  | none => false
  | some s => s != ""

/-- `ADMIN_PASSWORD` (src/server.js line 47). -/
def ADMIN_PASSWORD : String := "yoshon2024"

/-- The expression `req.headers["x-admin-password"] || req.body.password`
(src/server.js line 51): the header value when it is truthy, otherwise the
body field. -/
def effectivePassword (header bodyPassword : Option String) : Option String :=
  if truthy header then header else bodyPassword

/-- `checkAdminPassword` (src/server.js lines 50-58): the request passes
the admin check iff the effective password is truthy and strictly equals
`ADMIN_PASSWORD`.  (`password !== ADMIN_PASSWORD` compares a possibly
`undefined` value with a string, hence the comparison at `Option String`.) -/
def checkAdminPassword (header bodyPassword : Option String) : Bool :=
  let password := effectivePassword header bodyPassword
  if !truthy password || password != some ADMIN_PASSWORD then false else true

/-- Result of JavaScript `parseInt` on the `:index` route parameter. -/
inductive ParsedIndex where
  | int (i : Int)
  | nan
deriving DecidableEq, Repr

/-- Value of a hexadecimal digit character, `none` for a non-digit. -/
def hexDigitVal (c : Char) : Option Nat :=
  if c.isDigit then some (c.toNat - 48)
  else if 'a' ≤ c ∧ c ≤ 'f' then some (c.toNat - 87)
  else if 'A' ≤ c ∧ c ≤ 'F' then some (c.toNat - 55)
  else none

/-- Value of a decimal digit character, `none` for a non-digit. -/
def decDigitVal (c : Char) : Option Nat :=
  if c.isDigit then some (c.toNat - 48) else none

/-- Longest prefix of digit values recognised by `digitVal`. -/
def takeDigits (digitVal : Char → Option Nat) : List Char → List Nat
  | [] => []
  | c :: rest =>
    match digitVal c with
    | some v => v :: takeDigits digitVal rest
    | none => []

/-- Value of a digit sequence in the given radix. -/
def digitsToNat (radix : Nat) (ds : List Nat) : Nat :=
  ds.foldl (fun acc d => acc * radix + d) 0

/-- JavaScript `parseInt(string)` with no radix argument, as the server
calls it on the `:index` route parameter: skip leading whitespace, read an
optional sign, detect a "0x"/"0X" prefix (radix 16, else 10), then take the
longest prefix of digits of that radix; if that prefix is empty the result
is `NaN`.  (JavaScript numbers lose precision above 2^53; the handlers only
compare the result against 0 and the array length, so the exact integer
model is faithful for every observable outcome.) -/
def jsParseInt (s : String) : ParsedIndex :=
  let cs0 := s.data.dropWhile Char.isWhitespace
  let sign : Int :=
    match cs0 with
    | '-' :: _ => -1
    | _ => 1
  let cs1 :=
    match cs0 with
    | '-' :: rest => rest
    | '+' :: rest => rest
    | _ => cs0
  let useHex : Bool :=
    match cs1 with
    | '0' :: 'x' :: _ => true
    | '0' :: 'X' :: _ => true
    | _ => false
  let cs2 :=
    match cs1 with
    | '0' :: 'x' :: rest => rest
    | '0' :: 'X' :: rest => rest
    | _ => cs1
  let ds := takeDigits (if useHex then hexDigitVal else decDigitVal) cs2
  if ds.isEmpty then ParsedIndex.nan
  else ParsedIndex.int (sign * (digitsToNat (if useHex then 16 else 10) ds : Int))

/-- The sentinel status stored when `Yoshon` is omitted or empty. -/
def YOSHON_SENTINEL : String := "Status N/A Yet"

/-- The expression `Yoshon || "Status N/A Yet"` (src/server.js lines 92 and
133): the supplied value when truthy, else the sentinel. -/
def yoshonOrSentinel (Yoshon : Option String) : String :=
  if truthy Yoshon then Yoshon.getD "" else YOSHON_SENTINEL

/-- The JSON payload of a response, one constructor per response shape the
routes produce. -/
inductive RespBody where
  | products (l : List Product)
  | created (product : Product) (totalProducts : Nat)
  | updated (product : Product)
  | deleted (product : Option Product) (totalProducts : Nat)
  | replaced (totalProducts : Nat)
  | health (totalProducts : Nat)
  | error (msg : String)
deriving DecidableEq, Repr

/-- An HTTP response: status code and JSON body. -/
structure Response where
  status : Nat
  body : RespBody
deriving DecidableEq, Repr

/-- The 401 response of `checkAdminPassword`. -/
def unauthorized : Response := ⟨401, RespBody.error "Unauthorized"⟩

/-- GET /api/products (src/server.js lines 65-72).  `readProducts` never
throws (it catches internally and returns `[]`), so the catch branch of the
handler is unreachable and the response is always 200. -/
def getProductsRoute (file : FileData) : Response :=
  ⟨200, RespBody.products (readProducts file)⟩

/-- GET /api/health (src/server.js lines 208-219). -/
def getHealthRoute (file : FileData) : Response :=
  ⟨200, RespBody.health (readProducts file).length⟩

/-- POST /api/products (src/server.js lines 79-110): admin check, then
require truthy Brand and Product Name, then append the new record and
rewrite the file. -/
def postProductRoute (header bodyPassword Brand ProductName Yoshon : Option String)
    (file : FileData) (writeOk : Bool) : Response × FileData :=
  if !checkAdminPassword header bodyPassword then (unauthorized, file)
  else if !truthy Brand || !truthy ProductName then
    (⟨400, RespBody.error "Brand and Product Name are required"⟩, file)
  else
    let products := readProducts file
    let newProduct : Product :=
      ⟨Brand.getD "", ProductName.getD "", yoshonOrSentinel Yoshon⟩
    let products1 := products ++ [newProduct]
    let written := writeProducts products1 writeOk file
    if written.1 then
      (⟨201, RespBody.created newProduct products1.length⟩, written.2)
    else
      (⟨500, RespBody.error "Failed to save product"⟩, written.2)

/-- PUT /api/products/:index (src/server.js lines 113-148).  When
`parseInt(index)` is `NaN`, both bounds comparisons are false, so the 404
guard is skipped; `products[NaN] = newProduct` then stores a non-index
property that `JSON.stringify` ignores, so the file is rewritten with the
unchanged array while the response echoes the new record with status 200. -/
def putProductRoute (header bodyPassword : Option String) (key : String)
    (Brand ProductName Yoshon : Option String)
    (file : FileData) (writeOk : Bool) : Response × FileData :=
  if !checkAdminPassword header bodyPassword then (unauthorized, file)
  else if !truthy Brand || !truthy ProductName then
    (⟨400, RespBody.error "Brand and Product Name are required"⟩, file)
  else
    let products := readProducts file
    let newProduct : Product :=
      ⟨Brand.getD "", ProductName.getD "", yoshonOrSentinel Yoshon⟩
    match jsParseInt key with
    | ParsedIndex.nan =>
      let written := writeProducts products writeOk file
      if written.1 then
        (⟨200, RespBody.updated newProduct⟩, written.2)
      else
        (⟨500, RespBody.error "Failed to save product"⟩, written.2)
    | ParsedIndex.int i =>
      if i < 0 ∨ (products.length : Int) ≤ i then
        (⟨404, RespBody.error "Product not found"⟩, file)
      else
        let products1 := products.set i.toNat newProduct
        let written := writeProducts products1 writeOk file
        if written.1 then
          (⟨200, RespBody.updated newProduct⟩, written.2)
        else
          (⟨500, RespBody.error "Failed to save product"⟩, written.2)

/-- DELETE /api/products/:index (src/server.js lines 151-177).  When
`parseInt(index)` is `NaN`, the 404 guard is skipped as in the PUT route;
`products[NaN]` is `undefined` and `products.splice(NaN, 1)` converts the
start index to 0 and removes the first element. -/
def deleteProductRoute (header bodyPassword : Option String) (key : String)
    (file : FileData) (writeOk : Bool) : Response × FileData :=
  if !checkAdminPassword header bodyPassword then (unauthorized, file)
  else
    let products := readProducts file
    match jsParseInt key with
    | ParsedIndex.nan =>
      let deletedProduct : Option Product := none
      let products1 := products.eraseIdx 0
      let written := writeProducts products1 writeOk file
      if written.1 then
        (⟨200, RespBody.deleted deletedProduct products1.length⟩, written.2)
      else
        (⟨500, RespBody.error "Failed to delete product"⟩, written.2)
    | ParsedIndex.int i =>
      if i < 0 ∨ (products.length : Int) ≤ i then
        (⟨404, RespBody.error "Product not found"⟩, file)
      else
        let deletedProduct := products[i.toNat]?
        let products1 := products.eraseIdx i.toNat
        let written := writeProducts products1 writeOk file
        if written.1 then
          (⟨200, RespBody.deleted deletedProduct products1.length⟩, written.2)
        else
          (⟨500, RespBody.error "Failed to delete product"⟩, written.2)

/-- The `products` field of the bulk-replace request body: either an array
of product objects or anything else (`Array.isArray` is the only test the
handler performs). -/
inductive ProductsField where
  | arr (l : List Product)
  | notArr
deriving DecidableEq, Repr

/-- POST /api/products/bulk/replace (src/server.js lines 182-202): admin
check, require an array, then overwrite the whole file with the supplied
array verbatim. -/
def bulkReplaceRoute (header bodyPassword : Option String)
    (products : ProductsField) (file : FileData) (writeOk : Bool) :
    Response × FileData :=
  if !checkAdminPassword header bodyPassword then (unauthorized, file)
  else
    match products with
    | ProductsField.notArr =>
      (⟨400, RespBody.error "Products must be an array"⟩, file)
    | ProductsField.arr l =>
      let written := writeProducts l writeOk file
      if written.1 then
        (⟨200, RespBody.replaced l.length⟩, written.2)
      else
        (⟨500, RespBody.error "Failed to save products"⟩, written.2)

/-- The invariant of section 3 of the specification: every stored record
has a non-empty Brand and a non-empty Product Name. -/
def storeInvariant (l : List Product) : Prop :=
  ∀ p ∈ l, p.Brand ≠ "" ∧ p.ProductName ≠ ""

instance (l : List Product) : Decidable (storeInvariant l) :=
  List.decidableBAll _ l

/-- The admin check passes exactly when the effective password (header if
truthy, else body field) is present and equals `ADMIN_PASSWORD`. -/
theorem checkAdminPassword_iff (header bodyPassword : Option String) :
    checkAdminPassword header bodyPassword = true ↔
      effectivePassword header bodyPassword = some ADMIN_PASSWORD := by
  unfold checkAdminPassword
  cases hp : effectivePassword header bodyPassword with
  | none => simp [truthy]
  | some p =>
    by_cases h : p = ADMIN_PASSWORD
    · subst h
      simp [truthy, ADMIN_PASSWORD]
    · simp [truthy, h]

/-- A truthy optional string carries a non-empty string. -/
theorem truthy_getD (B : Option String) (h : truthy B = true) :
    B.getD "" ≠ "" := by
  cases B with
  | none => simp [truthy] at h
  | some s => simpa [truthy] using h

/-- Writing preserves the store invariant when both the written list and
the previous file contents satisfy it. -/
theorem storeInvariant_write (l1 : List Product) (w : Bool) (file : FileData)
    (h1 : storeInvariant l1) (h : storeInvariant (readProducts file)) :
    storeInvariant (readProducts (writeProducts l1 w file).2) := by
  unfold writeProducts
  cases w
  · simpa using h
  · simpa [readProducts] using h1

/-- C4: a write request (POST, PUT, DELETE or bulk replace) whose effective
secret is absent or differs from the configured admin password gets a 401
response and leaves the stored file unchanged, for every body, key, file
state and write outcome — the rejection depends on nothing else. -/
theorem unauthorized_write_rejected
    (header bodyPassword Brand ProductName Yoshon : Option String)
    (key : String) (bulkBody : ProductsField) (file : FileData) (writeOk : Bool)
    (hauth : effectivePassword header bodyPassword ≠ some ADMIN_PASSWORD) :
    postProductRoute header bodyPassword Brand ProductName Yoshon file writeOk
        = (unauthorized, file) ∧
    putProductRoute header bodyPassword key Brand ProductName Yoshon file writeOk
        = (unauthorized, file) ∧
    deleteProductRoute header bodyPassword key file writeOk
        = (unauthorized, file) ∧
    bulkReplaceRoute header bodyPassword bulkBody file writeOk
        = (unauthorized, file) := by
  have hc : checkAdminPassword header bodyPassword = false := by
    cases hcb : checkAdminPassword header bodyPassword
    · rfl
    · exact absurd ((checkAdminPassword_iff header bodyPassword).mp hcb) hauth
  refine ⟨?_, ?_, ?_, ?_⟩ <;>
    simp [postProductRoute, putProductRoute, deleteProductRoute,
      bulkReplaceRoute, hc]

/-- Witness for C4 at a concrete input: a wrong header with a correct body
password is still rejected with 401 and no state change. -/
theorem unauthorized_write_rejected_witness :
    effectivePassword (some "wrong") (some ADMIN_PASSWORD)
        ≠ some ADMIN_PASSWORD ∧
    postProductRoute (some "wrong") (some ADMIN_PASSWORD)
        (some "Acme") (some "Matzo Meal") none (FileData.ok []) true
      = (unauthorized, FileData.ok []) :=
  ⟨by decide,
    (unauthorized_write_rejected (some "wrong") (some ADMIN_PASSWORD)
      (some "Acme") (some "Matzo Meal") none "0" ProductsField.notArr
      (FileData.ok []) true (by decide)).1⟩

/-- C5: an authorized POST /api/products whose Brand or Product Name is
missing or empty gets a 400 response and leaves the stored file
unchanged. -/
theorem post_invalid_fields_400
    (header bodyPassword Brand ProductName Yoshon : Option String)
    (file : FileData) (writeOk : Bool)
    (hauth : checkAdminPassword header bodyPassword = true)
    (hinvalid : truthy Brand = false ∨ truthy ProductName = false) :
    postProductRoute header bodyPassword Brand ProductName Yoshon file writeOk
      = (⟨400, RespBody.error "Brand and Product Name are required"⟩, file) := by
  rcases hinvalid with h | h <;> simp [postProductRoute, hauth, h]

/-- Witness for C5: an authorized create with an empty Brand yields 400 and
the file keeps its single record. -/
theorem post_invalid_fields_400_witness :
    checkAdminPassword (some ADMIN_PASSWORD) none = true ∧
    postProductRoute (some ADMIN_PASSWORD) none (some "") (some "Matzo Meal")
        none (FileData.ok [⟨"Acme", "Flour", "Yoshon"⟩]) true
      = (⟨400, RespBody.error "Brand and Product Name are required"⟩,
         FileData.ok [⟨"Acme", "Flour", "Yoshon"⟩]) :=
  ⟨by decide,
    post_invalid_fields_400 (some ADMIN_PASSWORD) none (some "")
      (some "Matzo Meal") none (FileData.ok [⟨"Acme", "Flour", "Yoshon"⟩]) true
      (by decide) (Or.inl (by decide))⟩

/-- C7: an authorized bulk replace with an array stores the supplied array
verbatim (no per-item validation or modification) and, when the write
succeeds, reports totalProducts equal to the supplied length. -/
theorem bulk_replace_verbatim
    (header bodyPassword : Option String) (l : List Product) (file : FileData)
    (hauth : checkAdminPassword header bodyPassword = true) :
    bulkReplaceRoute header bodyPassword (ProductsField.arr l) file true
      = (⟨200, RespBody.replaced l.length⟩, FileData.ok l) := by
  simp [bulkReplaceRoute, hauth, writeProducts]

/-- Witness for C7: a malformed record (all fields empty) is stored
verbatim, demonstrating the absence of per-item validation. -/
theorem bulk_replace_verbatim_witness :
    checkAdminPassword (some ADMIN_PASSWORD) none = true ∧
    bulkReplaceRoute (some ADMIN_PASSWORD) none
        (ProductsField.arr [⟨"", "", ""⟩]) (FileData.ok [⟨"A", "B", "C"⟩]) true
      = (⟨200, RespBody.replaced 1⟩, FileData.ok [⟨"", "", ""⟩]) :=
  ⟨by decide,
    bulk_replace_verbatim (some ADMIN_PASSWORD) none [⟨"", "", ""⟩]
      (FileData.ok [⟨"A", "B", "C"⟩]) (by decide)⟩

/-- C8: an authorized bulk replace whose products value is not an array
gets a 400 response and leaves the stored file unchanged, whatever the
write outcome would have been. -/
theorem bulk_replace_non_array_400
    (header bodyPassword : Option String) (file : FileData) (writeOk : Bool)
    (hauth : checkAdminPassword header bodyPassword = true) :
    bulkReplaceRoute header bodyPassword ProductsField.notArr file writeOk
      = (⟨400, RespBody.error "Products must be an array"⟩, file) := by
  simp [bulkReplaceRoute, hauth]

/-- Witness for C8 at a concrete input. -/
theorem bulk_replace_non_array_400_witness :
    checkAdminPassword none (some ADMIN_PASSWORD) = true ∧
    bulkReplaceRoute none (some ADMIN_PASSWORD) ProductsField.notArr
        (FileData.ok [⟨"A", "B", "C"⟩]) true
      = (⟨400, RespBody.error "Products must be an array"⟩,
         FileData.ok [⟨"A", "B", "C"⟩]) :=
  ⟨by decide,
    bulk_replace_non_array_400 none (some ADMIN_PASSWORD)
      (FileData.ok [⟨"A", "B", "C"⟩]) true (by decide)⟩

/-- C1 (code bug): a non-numeric key parses to NaN, both bounds comparisons
against NaN are false, and the 404 guard is skipped.  DELETE with key "abc"
on a two-record store returns 200, removes the FIRST record (splice
converts the NaN start index to 0) and reports the deleted product as
undefined; PUT with key "abc" likewise returns 200 instead of 404. -/
theorem nonnumeric_key_delete_bug :
    jsParseInt "abc" = ParsedIndex.nan ∧
    deleteProductRoute (some ADMIN_PASSWORD) none "abc"
        (FileData.ok [⟨"Acme", "Matzo Meal", "Yoshon"⟩,
                      ⟨"Brandx", "Flour", "Not Yoshon"⟩]) true
      = (⟨200, RespBody.deleted none 1⟩,
         FileData.ok [⟨"Brandx", "Flour", "Not Yoshon"⟩]) ∧
    (putProductRoute (some ADMIN_PASSWORD) none "abc"
        (some "Acme") (some "Matzo Meal") none
        (FileData.ok [⟨"Acme", "Matzo Meal", "Yoshon"⟩]) true).1.status
      = 200 := by decide

/-- C2 counterexample: bulk replace performs no per-item validation, so an
authorized bulk replace starting from a store satisfying the invariant can
store a record with empty Brand and empty Product Name. -/
theorem bulk_replace_breaks_invariant :
    storeInvariant (readProducts (FileData.ok [⟨"Acme", "Flour", "Yoshon"⟩])) ∧
    ¬ storeInvariant (readProducts
        (bulkReplaceRoute (some ADMIN_PASSWORD) none
          (ProductsField.arr [⟨"", "", "Status N/A Yet"⟩])
          (FileData.ok [⟨"Acme", "Flour", "Yoshon"⟩]) true).2) := by decide

/-- C2 amended: create, update and delete preserve the invariant that every
stored record has non-empty Brand and Product Name (bulk replace does not,
as `bulk_replace_breaks_invariant` shows). -/
theorem crud_preserves_invariant
    (header bodyPassword Brand ProductName Yoshon : Option String)
    (key : String) (file : FileData) (writeOk : Bool)
    (h : storeInvariant (readProducts file)) :
    storeInvariant (readProducts
      (postProductRoute header bodyPassword Brand ProductName Yoshon file writeOk).2) ∧
    storeInvariant (readProducts
      (putProductRoute header bodyPassword key Brand ProductName Yoshon file writeOk).2) ∧
    storeInvariant (readProducts
      (deleteProductRoute header bodyPassword key file writeOk).2) := by
  have hsub : ∀ (l : List Product) (k : Nat),
      storeInvariant l → storeInvariant (l.eraseIdx k) := by
    intro l k hl p hp
    exact hl p ((List.eraseIdx_sublist l k).subset hp)
  refine ⟨?_, ?_, ?_⟩
  · unfold postProductRoute
    cases hc : checkAdminPassword header bodyPassword
    · exact h
    · cases hB : truthy Brand
      · exact h
      · cases hP : truthy ProductName
        · exact h
        · have hnew : storeInvariant (readProducts file ++
              [⟨Brand.getD "", ProductName.getD "", yoshonOrSentinel Yoshon⟩]) := by
            intro p hp
            rcases List.mem_append.mp hp with hm | hm
            · exact h p hm
            · rcases List.mem_singleton.mp hm with rfl
              exact ⟨truthy_getD Brand hB, truthy_getD ProductName hP⟩
          cases writeOk
          · exact h
          · exact hnew
  · unfold putProductRoute
    cases hc : checkAdminPassword header bodyPassword
    · exact h
    · cases hB : truthy Brand
      · exact h
      · cases hP : truthy ProductName
        · exact h
        · cases hk : jsParseInt key with
          | nan =>
            cases writeOk
            · exact h
            · exact h
          | int i =>
            by_cases hg : i < 0 ∨ ((readProducts file).length : Int) ≤ i
            · simp only [hg, ite_true, ite_false]
              exact h
            · simp only [hg, ite_true, ite_false]
              have hset : storeInvariant ((readProducts file).set i.toNat
                  ⟨Brand.getD "", ProductName.getD "", yoshonOrSentinel Yoshon⟩) := by
                intro p hp
                rcases List.mem_or_eq_of_mem_set hp with hm | rfl
                · exact h p hm
                · exact ⟨truthy_getD Brand hB, truthy_getD ProductName hP⟩
              cases writeOk
              · exact h
              · exact hset
  · unfold deleteProductRoute
    cases hc : checkAdminPassword header bodyPassword
    · exact h
    · cases hk : jsParseInt key with
      | nan =>
        cases writeOk
        · exact h
        · exact hsub (readProducts file) 0 h
      | int i =>
        by_cases hg : i < 0 ∨ ((readProducts file).length : Int) ≤ i
        · simp only [hg, ite_true, ite_false]
          exact h
        · simp only [hg, ite_true, ite_false]
          cases writeOk
          · exact h
          · exact hsub (readProducts file) i.toNat h

/-- Witness for the amended C2 at a concrete input: an authorized create on
a one-record store preserves the invariant on all three routes. -/
theorem crud_preserves_invariant_witness :
    storeInvariant (readProducts (FileData.ok [⟨"Acme", "Flour", "Yoshon"⟩])) ∧
    storeInvariant (readProducts
      (postProductRoute (some ADMIN_PASSWORD) none (some "Acme")
        (some "Matzo Meal") none (FileData.ok [⟨"Acme", "Flour", "Yoshon"⟩]) true).2) :=
  ⟨by decide,
    (crud_preserves_invariant (some ADMIN_PASSWORD) none (some "Acme")
      (some "Matzo Meal") none "abc" (FileData.ok [⟨"Acme", "Flour", "Yoshon"⟩])
      true (by decide)).1⟩

/-- C3 counterexample: when the store read fails, GET /api/products answers
200 with an empty array, not 500 — `readProducts` swallows the failure. -/
theorem get_products_read_failure_not_500 :
    getProductsRoute FileData.bad = ⟨200, RespBody.products []⟩ ∧
    (getProductsRoute FileData.bad).status ≠ 500 := by decide

/-- C3 amended: GET /api/products always answers 200 with the array
`readProducts` yields; a failed store read yields the empty array rather
than a 500 error. -/
theorem get_products_always_200 (file : FileData) :
    (getProductsRoute file).status = 200 ∧
    (getProductsRoute file).body = RespBody.products (readProducts file) ∧
    readProducts FileData.bad = [] :=
  ⟨rfl, rfl, rfl⟩

/-- C6: on a successful authorized create, and on a successful authorized
update of an existing index, the stored record carries the sentinel
"Status N/A Yet" when the supplied Yoshon is omitted or empty, and the
supplied value otherwise. -/
theorem yoshon_default_stored
    (header bodyPassword Brand ProductName Yoshon : Option String)
    (key : String) (i : Int) (file : FileData)
    (hauth : checkAdminPassword header bodyPassword = true)
    (hB : truthy Brand = true) (hP : truthy ProductName = true)
    (hk : jsParseInt key = ParsedIndex.int i)
    (h0 : 0 ≤ i) (hi : i < ((readProducts file).length : Int)) :
    ∃ y : String,
      (postProductRoute header bodyPassword Brand ProductName Yoshon file true).2
        = FileData.ok (readProducts file ++
            [⟨Brand.getD "", ProductName.getD "", y⟩]) ∧
      (putProductRoute header bodyPassword key Brand ProductName Yoshon file true).2
        = FileData.ok ((readProducts file).set i.toNat
            ⟨Brand.getD "", ProductName.getD "", y⟩) ∧
      ((Yoshon = none ∨ Yoshon = some "") → y = YOSHON_SENTINEL) ∧
      (∀ s : String, Yoshon = some s → s ≠ "" → y = s) := by
  have hg : ¬(i < 0 ∨ ((readProducts file).length : Int) ≤ i) := by
    push_neg
    exact ⟨h0, hi⟩
  refine ⟨yoshonOrSentinel Yoshon, ?_, ?_, ?_, ?_⟩
  · simp [postProductRoute, hauth, hB, hP, writeProducts]
  · simp [putProductRoute, hauth, hB, hP, hk, hg, writeProducts]
  · rintro (rfl | rfl) <;> simp [yoshonOrSentinel, truthy]
  · intro s hs hne
    subst hs
    simp [yoshonOrSentinel, truthy, hne]

/-- Witness for C6: create and update with an omitted Yoshon on a
one-record store, at index 0. -/
theorem yoshon_default_stored_witness :
    checkAdminPassword (some ADMIN_PASSWORD) none = true ∧
    jsParseInt "0" = ParsedIndex.int 0 ∧
    ∃ y : String,
      (postProductRoute (some ADMIN_PASSWORD) none (some "Acme")
          (some "Matzo Meal") none (FileData.ok [⟨"A", "B", "C"⟩]) true).2
        = FileData.ok ([⟨"A", "B", "C"⟩] ++
            [⟨(some "Acme").getD "", (some "Matzo Meal").getD "", y⟩]) ∧
      (putProductRoute (some ADMIN_PASSWORD) none "0" (some "Acme")
          (some "Matzo Meal") none (FileData.ok [⟨"A", "B", "C"⟩]) true).2
        = FileData.ok (([⟨"A", "B", "C"⟩] : List Product).set (Int.toNat 0)
            ⟨(some "Acme").getD "", (some "Matzo Meal").getD "", y⟩) ∧
      (((none : Option String) = none ∨ (none : Option String) = some "") →
        y = YOSHON_SENTINEL) ∧
      (∀ s : String, (none : Option String) = some s → s ≠ "" → y = s) :=
  ⟨by decide, by decide,
    yoshon_default_stored (some ADMIN_PASSWORD) none (some "Acme")
      (some "Matzo Meal") none "0" 0 (FileData.ok [⟨"A", "B", "C"⟩])
      (by decide) (by decide) (by decide) (by decide) (by decide) (by decide)⟩

/-- One authorized, validated create request, as used to state the
N-sequential-creates property. -/
structure CreateReq where
  header : Option String
  bodyPassword : Option String
  Brand : Option String
  ProductName : Option String
  Yoshon : Option String

/-- Run a list of POST /api/products requests in order, each write
succeeding, threading the file state. -/
def runCreates : List CreateReq → FileData → FileData
  | [], file => file
  | r :: rest, file =>
    runCreates rest
      (postProductRoute r.header r.bodyPassword r.Brand r.ProductName
        r.Yoshon file true).2

/-- Each authorized, validated create grows the stored array by exactly
one record. -/
theorem runCreates_length (reqs : List CreateReq) (file : FileData)
    (h : ∀ r ∈ reqs, checkAdminPassword r.header r.bodyPassword = true ∧
         truthy r.Brand = true ∧ truthy r.ProductName = true) :
    (readProducts (runCreates reqs file)).length
      = (readProducts file).length + reqs.length := by
  induction reqs generalizing file with
  | nil => simp [runCreates]
  | cons r rest ih =>
    obtain ⟨hc, hB, hP⟩ := h r (List.mem_cons_self r rest)
    have hstep : (postProductRoute r.header r.bodyPassword r.Brand
          r.ProductName r.Yoshon file true).2
        = FileData.ok (readProducts file ++
            [⟨r.Brand.getD "", r.ProductName.getD "",
              yoshonOrSentinel r.Yoshon⟩]) := by
      simp [postProductRoute, hc, hB, hP, writeProducts]
    rw [runCreates, hstep, ih _ (fun q hq => h q (List.mem_cons_of_mem r hq))]
    simp [readProducts]
    omega

/-- C9: starting from an empty store, after N sequential successful
creates GET /api/products answers 200 with exactly N records and
GET /api/health answers 200 with totalProducts = N. -/
theorem creates_then_counts (reqs : List CreateReq)
    (h : ∀ r ∈ reqs, checkAdminPassword r.header r.bodyPassword = true ∧
         truthy r.Brand = true ∧ truthy r.ProductName = true) :
    (∃ l : List Product,
      getProductsRoute (runCreates reqs (FileData.ok []))
        = ⟨200, RespBody.products l⟩ ∧
      l.length = reqs.length) ∧
    getHealthRoute (runCreates reqs (FileData.ok []))
      = ⟨200, RespBody.health reqs.length⟩ := by
  have hlen := runCreates_length reqs (FileData.ok []) h
  rw [show readProducts (FileData.ok []) = [] from rfl] at hlen
  simp only [List.length_nil, Nat.zero_add] at hlen
  constructor
  · exact ⟨readProducts (runCreates reqs (FileData.ok [])), rfl, hlen⟩
  · simp [getHealthRoute, hlen]

/-- Witness for C9 with two concrete creates. -/
theorem creates_then_counts_witness :
    (∀ r ∈ [(⟨some ADMIN_PASSWORD, none, some "Acme", some "Matzo Meal", none⟩ : CreateReq),
            ⟨none, some ADMIN_PASSWORD, some "Brandx", some "Flour", some "Yoshon"⟩],
        checkAdminPassword r.header r.bodyPassword = true ∧
        truthy r.Brand = true ∧ truthy r.ProductName = true) ∧
    getHealthRoute (runCreates
        [⟨some ADMIN_PASSWORD, none, some "Acme", some "Matzo Meal", none⟩,
         ⟨none, some ADMIN_PASSWORD, some "Brandx", some "Flour", some "Yoshon"⟩]
        (FileData.ok []))
      = ⟨200, RespBody.health 2⟩ :=
  ⟨by decide,
    (creates_then_counts
      [⟨some ADMIN_PASSWORD, none, some "Acme", some "Matzo Meal", none⟩,
       ⟨none, some ADMIN_PASSWORD, some "Brandx", some "Flour", some "Yoshon"⟩]
      (by decide)).2⟩

/-- C10: when the x-admin-password header is present and non-empty, the
body password is ignored: the authorization outcome is the same for any
two body passwords, and a wrong header yields rejection even when the body
password is the configured admin password. -/
theorem header_overrides_body_password (hdr : String) (b1 b2 : Option String)
    (hne : hdr ≠ "") :
    checkAdminPassword (some hdr) b1 = checkAdminPassword (some hdr) b2 ∧
    (hdr ≠ ADMIN_PASSWORD →
      checkAdminPassword (some hdr) (some ADMIN_PASSWORD) = false) := by
  have he : ∀ b : Option String, effectivePassword (some hdr) b = some hdr := by
    intro b
    simp [effectivePassword, truthy, hne]
  constructor
  · unfold checkAdminPassword
    rw [he b1, he b2]
  · intro hwrong
    cases hc : checkAdminPassword (some hdr) (some ADMIN_PASSWORD)
    · rfl
    · have hp := (checkAdminPassword_iff (some hdr) (some ADMIN_PASSWORD)).mp hc
      rw [he] at hp
      exact absurd (Option.some.inj hp) hwrong

/-- Witness for C10: the wrong header "wrong" masks a correct body
password, and swapping body passwords does not change the outcome. -/
theorem header_overrides_body_password_witness :
    ("wrong" : String) ≠ "" ∧
    checkAdminPassword (some "wrong") (some ADMIN_PASSWORD)
      = checkAdminPassword (some "wrong") none ∧
    checkAdminPassword (some "wrong") (some ADMIN_PASSWORD) = false :=
  ⟨by decide,
    (header_overrides_body_password "wrong" (some ADMIN_PASSWORD) none
      (by decide)).1,
    (header_overrides_body_password "wrong" (some ADMIN_PASSWORD) none
      (by decide)).2 (by decide)⟩
